import Mathlib

/-!
Verification model of the Levial voice-agent orchestration core
(`src/levial/orchestrator.py`, `src/levial/memory/manager.py`,
`src/levial/llm.py`).

Python values appearing in model replies are embedded as a small JSON value
type; `json.loads` is an external library and is modelled as an oracle
`parse : String → Option JsonObj` (a string that starts with a brace can
only parse to a JSON object or fail, which is the only way the code ever
calls it on a candidate substring running from a first `{` to a last `}`).
Strings are Lean `String`s; the character-level scanning done by the code
(`str.find`, `str.rfind`, slicing) is modelled on `String.data`.
-/

namespace Levial

/-- JSON values.  Numeric literals are modelled as integers: no claim under
verification computes with fractional numbers. -/
inductive Json where
  | null : Json
  | bool (b : Bool) : Json
  | num (n : Int) : Json
  | str (s : String) : Json
  | arr (elems : List Json) : Json
  | obj (members : List (String × Json)) : Json

/-- A parsed JSON object: its member list, as produced by `json.loads` on a
string that denotes an object. -/
def JsonObj : Type := List (String × Json)

/-- Python dictionary lookup `d.get(k)`: first member with the given key,
if any. -/
def JsonObj.get? (o : JsonObj) (k : String) : Option Json :=
  (o.find? (fun m => m.1 = k)).map (fun m => m.2)

/-- Python `k in d` key-membership test on a parsed object. -/
def JsonObj.hasKey (o : JsonObj) (k : String) : Bool :=
  (o.get? k).isSome

/-- Python truthiness of a JSON-decoded value: `None`, `False`, `0`, empty
string, empty list and empty dict are falsy, everything else truthy. -/
def Json.truthy : Json → Bool
  | Json.null => false
  | Json.bool b => b
  | Json.num n => n != 0
  | Json.str s => s != ""
  | Json.arr l => !l.isEmpty
  | Json.obj m => !m.isEmpty

/-- Python truthiness of an optional value (`d.get(k)` result): `None` is
falsy. -/
def optTruthy : Option Json → Bool
  | none => false
  | some j => j.truthy

/-- The opening-brace character, spelled by code point. -/
def lbrace : Char := Char.ofNat 123

/-- The closing-brace character, spelled by code point. -/
def rbrace : Char := Char.ofNat 125

/-- Python `s.find(c)` for a single character, with `-1` mapped to
`none`: index of the first occurrence. -/
def strFind (s : String) (c : Char) : Option Nat :=
  s.data.findIdx? (fun x => x = c)

/-- Python `s.rfind(c)` for a single character, with `-1` mapped to
`none`: index of the last occurrence. -/
def strRFind (s : String) (c : Char) : Option Nat :=
  (s.data.reverse.findIdx? (fun x => x = c)).map
    (fun i => s.data.length - 1 - i)

/-- Python slice `s[a:b]` (with the usual clamping; `a ≥ b` yields the
empty string). -/
def strSlice (s : String) (a b : Nat) : String :=
  String.mk ((s.data.drop a).take (b - a))

/-- A detected tool call, as destructured by the orchestrator from a parsed
reply object: `tool_call["tool"]`, `tool_call.get("server")`,
`tool_call["arguments"]`. -/
structure ToolCall where
  tool : Json
  server : Option Json
  arguments : Json

/-- Tool-call detection from `ConversationOrchestrator.run_loop`
(orchestrator.py lines 301-310): take the substring of the reply from the
first `{` to the last `}`, attempt a JSON parse (a `json.JSONDecodeError`
is caught and yields no tool call), and accept the result as a tool call
exactly when both the `tool` and `arguments` keys are present. -/
def findToolCall (parse : String → Option JsonObj) (reply : String) :
    Option ToolCall :=
  match strFind reply lbrace, strRFind reply rbrace with
  | some s, some e =>
    match parse (strSlice reply s (e + 1)) with
    | some o =>
      match o.get? ("tool"), o.get? ("arguments") with
      | some t, some a => some ⟨t, o.get? ("server"), a⟩
      | _, _ => none
    | none => none
  | _, _ => none

/-- The index `i` is the position of the first occurrence of `c` in `l`. -/
def IsFirstIdx (l : List Char) (c : Char) (i : Nat) : Prop :=
  l[i]? = some c ∧ ∀ j, j < i → l[j]? ≠ some c

/-- The index `i` is the position of the last occurrence of `c` in `l`. -/
def IsLastIdx (l : List Char) (c : Char) (i : Nat) : Prop :=
  l[i]? = some c ∧ ∀ j, i < j → l[j]? ≠ some c

/-!
The agentic Tool-Call Loop, `ConversationOrchestrator.run_loop` lines
283-352.  The external collaborators are modelled as oracles indexed by
the turn-counter value at which they are consulted: because the loop is
strictly sequential, any concrete behaviour of `ollama`, of the MCP tool
transport and of the shutdown flag corresponds to one such family of
outcomes.  `query n` is the result of the model query made when
`current_turn = n` (`Except.error` models a raised
`subprocess.CalledProcessError`); `callTool n` is the tool-execution
outcome at that turn (`Except.error e` models an arbitrary raised
exception whose text is `e`, already folded through Python `str`);
`shutdownFlag t` is the value of `shutdown_event.is_set()` read by the
`while` condition when the counter equals `t`.
-/

/-- Oracles for the external collaborators consulted by the Tool-Call
Loop. -/
structure LoopEnv where
  query : Nat → Except Unit String
  parse : String → Option JsonObj
  callTool : Nat → Except String String
  shutdownFlag : Nat → Bool

/-- The loop-local state: the `current_turn` counter, the conversation
history, the current binding of the Python local `reply` (`none` models
the variable never having been assigned), and the turns at which
`mcp_client.call_tool` was actually invoked. -/
structure LoopState where
  turn : Nat
  history : List (String × String)
  replyVar : Option String
  invocations : List Nat

/-- How the Tool-Call Loop ended: a final (non-tool) reply was accepted
via `break`; the model query raised and the loop `break`s; the
`current_turn < max_turns` test failed (turn budget exhausted); or the
shutdown flag was observed set by the `while` condition. -/
inductive LoopExit where
  | finalAnswer (reply : String)
  | queryError
  | budget
  | shutdownExit

/-- Tool invocation and observation synthesis, orchestrator.py lines
308-320: a falsy `server` field (missing, `None`, empty, `0`, `False`)
yields the fixed error observation without invoking anything; otherwise
the tool is invoked and a raised exception is folded into an error
observation carrying its text.  The second component records whether
`mcp_client.call_tool` was invoked. -/
def toolObservation (callRes : Except String String) (tc : ToolCall) :
    String × Bool :=
  if optTruthy tc.server then
    match callRes with
    | Except.ok res => (res, true)
    | Except.error e => (("Error: Tool execution failed: ") ++ e, true)
  else ((("Error: Server name missing.")), false)

/-- One-reply-at-a-time unfolding of the `while current_turn < max_turns
and not self.shutdown_event.is_set()` loop, orchestrator.py lines
286-352, with `fuel` the number of loop iterations still permitted by the
turn budget (callers supply `fuel = maxTurns - turn`, so the `0` case
coincides with the failing `current_turn < max_turns` test). -/
def agenticGo (env : LoopEnv) (maxTurns : Nat) :
    Nat → LoopState → LoopState × LoopExit
  | 0, s => (s, LoopExit.budget)
  | Nat.succ fuel, s =>
    if s.turn < maxTurns then
      if env.shutdownFlag s.turn then (s, LoopExit.shutdownExit)
      else
        match env.query (s.turn + 1) with
        | Except.error _ => ({ s with turn := s.turn + 1 }, LoopExit.queryError)
        | Except.ok reply =>
          match findToolCall env.parse reply with
          | some tc =>
            let ob := toolObservation (env.callTool (s.turn + 1)) tc
            agenticGo env maxTurns fuel
              { turn := s.turn + 1,
                history := s.history ++
                  [(("assistant"), reply),
                   (("system"), ("Tool Output: ") ++ ob.1)],
                replyVar := some reply,
                invocations := s.invocations ++
                  (if ob.2 then [s.turn + 1] else []) }
          | none =>
            ({ turn := s.turn + 1,
               history := s.history ++ [(("assistant"), reply)],
               replyVar := some reply,
               invocations := s.invocations }, LoopExit.finalAnswer reply)
    else (s, LoopExit.budget)

/-- The turn budget `max_turns = 5` of orchestrator.py line 283. -/
def max_turns : Nat := 5

/-- The whole Tool-Call Loop: counter starts at `0`, `reply` starts with
whatever binding (possibly none) survives from earlier cycles. -/
def agenticRun (env : LoopEnv) (h0 : List (String × String))
    (r0 : Option String) : LoopState × LoopExit :=
  agenticGo env max_turns max_turns
    { turn := 0, history := h0, replyVar := r0, invocations := [] }

/-- What happens at the `if reply:` test on orchestrator.py line 355,
directly after the Tool-Call Loop: if the local `reply` was never
assigned, Python raises `UnboundLocalError` (crashing `run_loop`); an
empty reply skips the SPEAKING phase; a non-empty reply enters it. -/
inductive AfterLoop where
  | crashUnbound
  | skipSpeaking
  | speaking (r : String)

/-- Dispatch of the `if reply:` test on the final binding of `reply`. -/
def afterLoop : Option String → AfterLoop
  | none => AfterLoop.crashUnbound
  | some r => if r = "" then AfterLoop.skipSpeaking else AfterLoop.speaking r

/-- The two history entries appended by one tool-call iteration of the
loop, for each of `fuel` consecutive iterations starting after turn
`t`. -/
def toolPairs (env : LoopEnv) (r : Nat → String) (tc : Nat → ToolCall) :
    Nat → Nat → List (String × String)
  | _, 0 => []
  | t, Nat.succ fuel =>
    (("assistant"), r (t + 1)) ::
      (("system"), ("Tool Output: ") ++
        (toolObservation (env.callTool (t + 1)) (tc (t + 1))).1) ::
      toolPairs env r tc (t + 1) fuel

/-- The turns among `t+1, …, t+fuel` at which the tool transport is
actually invoked when every reply is a tool call. -/
def toolInvocs (env : LoopEnv) (tc : Nat → ToolCall) :
    Nat → Nat → List Nat
  | _, 0 => []
  | t, Nat.succ fuel =>
    (if (toolObservation (env.callTool (t + 1)) (tc (t + 1))).2
      then [t + 1] else []) ++ toolInvocs env tc (t + 1) fuel


/-- Python `a.lower()` / character-wise lowering (ASCII is all the code
compares). -/
def pyLower (s : String) : String :=
  String.mk (s.data.map Char.toLower)

/-- Python substring test `needle in hay`. -/
def strContains (hay needle : String) : Bool :=
  (List.range (hay.data.length + 1)).any
    (fun i => (hay.data.drop i).take needle.data.length = needle.data)

mutual

/-- Python equality (`==`) on JSON-decoded values, used by `in` on a
list. -/
def Json.beq : Json → Json → Bool
  | Json.null, Json.null => true
  | Json.bool a, Json.bool b => a == b
  | Json.num a, Json.num b => a == b
  | Json.str a, Json.str b => a == b
  | Json.arr a, Json.arr b => Json.beqList a b
  | Json.obj a, Json.obj b => Json.beqPairs a b
  | _, _ => false

/-- Elementwise Python equality of two lists. -/
def Json.beqList : List Json → List Json → Bool
  | [], [] => true
  | x :: xs, y :: ys => Json.beq x y && Json.beqList xs ys
  | _, _ => false

/-- Memberwise Python equality of two objects (parsed dicts preserve
insertion order, so memberwise comparison is the notion used by the model). -/
def Json.beqPairs : List (String × Json) → List (String × Json) → Bool
  | [], [] => true
  | x :: xs, y :: ys => (x.1 == y.1 && Json.beq x.2 y.2) && Json.beqPairs xs ys
  | _, _ => false

end

/-!
The SPEAKING phase, `ConversationOrchestrator.run_loop` lines 354-453:
TTS synthesis and playback, and the nested barge-in block.  `AudioPlayer`,
`SpeechDetector`, `AudioCapture.save_audio` and the ASR transcription are
external to the sources under verification, so their observable behaviour
enters as oracle fields.  Structurally decisive and taken directly from
the indentation of the source: the whole barge-in monitoring block (lines
370-450) is the body of the `except Exception` handler of the TTS `try`
(line 367), so it runs only when `synthesize`/`play` raised; and the
`break` statements on lines 444 and 448 sit inside no `while` other than
the outer session loop of line 171, so they terminate the session loop
itself.
-/

/-- How the playback-wait loop of lines 384-396 ended: the loop condition
went false (no live playback process, or playback finished) without
calling `audio_player.stop()`; the shutdown flag was seen (stop called,
line 386); or speech was detected (stop called, line 391). -/
inductive WaitOutcome where
  | playbackEnded
  | shutdownSeen
  | speechSeen

/-- Oracles for the externals consulted during the SPEAKING phase. -/
structure SpeakEnv where
  ttsRaises : Bool
  waitOutcome : WaitOutcome
  shutdownAfterWait : Bool
  procNoneAtCheck : Bool
  speechEventSet : Bool
  intRecorded : Bool
  intText : String

/-- Where control goes when the SPEAKING phase is over: fall through to
the next cycle of the session loop (IDLE); `break` out of the session
loop, ending the session; or set the shutdown flag and `break`. -/
inductive SpeakResult where
  | toIdle
  | sessionEnd
  | shutdownSet

/-- Observable summary of one pass through lines 354-453 for a truthy
`reply`: where control went, whether the barge-in speech detector was
ever started, whether `audio_player.stop()` was called by the monitoring
loop, and whether an interrupting utterance was captured (buffered
frames + silence-terminated recording + save). -/
structure SpeakOut where
  result : SpeakResult
  monitoringStarted : Bool
  playbackStopped : Bool
  interruptionCaptured : Bool

/-- The SPEAKING phase of orchestrator.py lines 363-453, entered with a
truthy `reply`.  When the TTS `try` body (synthesize + play, lines
364-366) completes without raising, the `except` handler - which contains
the entire barge-in apparatus - is skipped and control falls to the end of
the session-loop body.  Only when TTS raised does monitoring start; after
the wait loop, line 400 re-checks shutdown (`break` ends the session),
line 404 gates the interruption capture, and lines 442-450 route on the
transcribed text: a "thank you" match `break`s out of the session loop,
a "goodbye" match sets the shutdown flag and `break`s, anything else
falls through. -/
def speakingPhase (env : SpeakEnv) : SpeakOut :=
  if env.ttsRaises = false then
    { result := SpeakResult.toIdle, monitoringStarted := false,
      playbackStopped := false, interruptionCaptured := false }
  else
    let stopped :=
      match env.waitOutcome with
      | WaitOutcome.playbackEnded => false
      | WaitOutcome.shutdownSeen => true
      | WaitOutcome.speechSeen => true
    if env.shutdownAfterWait then
      { result := SpeakResult.sessionEnd, monitoringStarted := true,
        playbackStopped := stopped, interruptionCaptured := false }
    else if env.procNoneAtCheck && env.speechEventSet then
      if env.intRecorded then
        if strContains (pyLower env.intText) (("thank you")) then
          { result := SpeakResult.sessionEnd, monitoringStarted := true,
            playbackStopped := stopped, interruptionCaptured := true }
        else if strContains (pyLower env.intText) (("goodbye")) then
          { result := SpeakResult.shutdownSet, monitoringStarted := true,
            playbackStopped := stopped, interruptionCaptured := true }
        else
          { result := SpeakResult.toIdle, monitoringStarted := true,
            playbackStopped := stopped, interruptionCaptured := true }
      else
        { result := SpeakResult.toIdle, monitoringStarted := true,
          playbackStopped := stopped, interruptionCaptured := true }
    else
      { result := SpeakResult.toIdle, monitoringStarted := true,
        playbackStopped := stopped, interruptionCaptured := false }

/-- History after the `if reply:` guard of line 355: a truthy reply is
appended once more under the `agent` role (line 358) before TTS; a falsy
or unbound reply leaves history as the Tool-Call Loop left it (for the
unbound case the session crashes at the guard itself). -/
def historyAfterSpeaking (out : LoopState × LoopExit) :
    List (String × String) :=
  match afterLoop out.1.replyVar with
  | AfterLoop.speaking r => out.1.history ++ [(("agent"), r)]
  | _ => out.1.history

/-!
The memory manager, `src/levial/memory/manager.py`.  `VectorStore` and
`UserProfile` live in files that are not among the sources under
verification; the profile record below and the two operations on it are
modelled from the spec.
-/

/-- Modelled from the spec: the persisted user profile of `UserProfile`
(user_profile.py is not among the sources): §3 "UserProfile - persisted
entity: name (optional), facts (key→value mapping), interests (set,
insertion-order irrelevant), preferences".  `manager.py` accesses it as a
dict (`profile_data["name"]`, `profile_data["facts"]`,
`update_interest`), so fields hold JSON values. -/
structure UserProfileData where
  name : Json
  facts : List (String × Json)
  interests : List Json
  preferences : List Json

/-- Modelled from the spec: `UserProfile.update_interest`
(user_profile.py is not among the sources): §4.6 "each interest is added
to the stored interest set" - insert unless already present. -/
def update_interest (interests : List Json) (i : Json) : List Json :=
  if interests.any (fun x => Json.beq x i) then interests
  else interests ++ [i]

/-- Python dict assignment `d[key] = value`: overwrite in place when the
key exists, append otherwise (insertion order preserved). -/
def dictSet (d : List (String × Json)) (k : String) (v : Json) :
    List (String × Json) :=
  if (d.find? (fun m => m.1 = k)).isSome then
    d.map (fun m => if m.1 = k then (k, v) else m)
  else d ++ [(k, v)]

/-- The `for key, value in knowledge["facts"].items():` loop of
manager.py lines 110-111, reached only when the `facts` value is truthy:
only a dict has `.items()`; any other truthy value raises
`AttributeError`, which the enclosing `except` catches. -/
def factsStep (facts : List (String × Json)) : Json →
    Except Unit (List (String × Json))
  | Json.obj kvs =>
    Except.ok (kvs.foldl (fun acc kv => dictSet acc kv.1 kv.2) facts)
  | _ => Except.error ()

/-- The `for interest in knowledge["interests"]:` loop of manager.py
lines 114-115, reached only when the `interests` value is truthy.
Python iteration: a list yields its elements, a string yields its
one-character substrings, a dict yields its keys; a number or boolean is
not iterable (`TypeError`, caught by the enclosing `except`). -/
def interestsStep (interests : List Json) : Json → Except Unit (List Json)
  | Json.arr l => Except.ok (l.foldl update_interest interests)
  | Json.str s =>
    Except.ok ((s.data.map (fun c => Json.str (String.mk [c]))).foldl
      update_interest interests)
  | Json.obj m =>
    Except.ok ((m.map (fun kv => Json.str kv.1)).foldl
      update_interest interests)
  | _ => Except.error ()

/-- The fixed dict `manager.py` returns on every degraded path:
`{"facts": {}, "interests": [], "name": None}` (written here with the
member list of the parsed object). -/
def emptyKnowledge : JsonObj :=
  [(("facts"), Json.obj []), (("interests"), Json.arr []),
   (("name"), Json.null)]

/-- Result of one call to `MemoryManager.extract_and_update_knowledge`:
the profile as mutated in memory, the returned knowledge dict, and
whether `save_profile()` was reached (spec §4.6: the profile is persisted
synchronously on success; `user_profile.py` is not among the sources, so
persistence is modelled as this flag). -/
structure ExtractOut where
  profile : UserProfileData
  knowledge : JsonObj
  saved : Bool

/-- `MemoryManager.extract_and_update_knowledge`, manager.py lines
92-128: query the model (any raised exception is caught and yields the
empty result), locate the first-`{`-to-last-`}` substring (none found:
empty result, no save), parse it (a `json.JSONDecodeError` is caught:
empty result), then apply the three truthiness-guarded profile updates in
source order - name overwrite, facts merge, interest insertion - and call
`save_profile()`.  An exception from a malformed `facts`/`interests`
value is caught by the same handler, returning the empty result while
keeping whatever in-memory mutations already happened. -/
def extract_and_update_knowledge (p : UserProfileData)
    (queryResult : Except Unit String) (parse : String → Option JsonObj) :
    ExtractOut :=
  match queryResult with
  | Except.error _ => { profile := p, knowledge := emptyKnowledge, saved := false }
  | Except.ok result =>
    match strFind result lbrace, strRFind result rbrace with
    | some s, some e =>
      match parse (strSlice result s (e + 1)) with
      | none => { profile := p, knowledge := emptyKnowledge, saved := false }
      | some k =>
        let nameVal := JsonObj.get? k (("name"))
        let p1 :=
          if optTruthy nameVal then
            { p with name := nameVal.getD Json.null }
          else p
        let factsVal := JsonObj.get? k (("facts"))
        match
            if optTruthy factsVal then factsStep p1.facts (factsVal.getD Json.null)
            else Except.ok p1.facts with
        | Except.error _ =>
          { profile := p1, knowledge := emptyKnowledge, saved := false }
        | Except.ok newFacts =>
          let p2 := { p1 with facts := newFacts }
          let interestsVal := JsonObj.get? k (("interests"))
          match
              if optTruthy interestsVal then
                interestsStep p2.interests (interestsVal.getD Json.null)
              else Except.ok p2.interests with
          | Except.error _ =>
            { profile := p2, knowledge := emptyKnowledge, saved := false }
          | Except.ok newInterests =>
            { profile := { p2 with interests := newInterests },
              knowledge := k, saved := true }
    | _, _ => { profile := p, knowledge := emptyKnowledge, saved := false }

/-- `MemoryManager.get_relevant_context`, manager.py lines 39-59: the
per-turn context string is the fixed concatenation of a time section, a
profile section and a memories section; the memories section renders each
hit as `- role: text` under a header, and is the empty string when the
store returned zero hits.  The profile dump and the formatted clock time
are external renderings and enter as parameters; hits carry an optional
role (`metadata.get("role", "unknown")`) and a text. -/
def get_relevant_context (profileRepr : String) (timeStr : String)
    (memories : List (Option String × String)) : String :=
  let profile_str := ("User Profile: ") ++ profileRepr
  let time_context := ("Current Time: ") ++ timeStr
  let memory_str :=
    if memories.isEmpty then ("")
    else
      ("\nRelevant Past Conversations:\n") ++
        String.join (memories.map
          (fun m => ("- ") ++ m.1.getD (("unknown")) ++ (": ") ++ m.2 ++ ("\n")))
  time_context ++ ("\n") ++ profile_str ++ ("\n") ++ memory_str

/-- `OllamaLLM.build_prompt`, llm.py lines 8-33: the prompt is the
newline-join of the system preamble, the optional preference and tool
sections, the optional context section, one `ROLE: content` line per
history entry, the current user text and the trailing `ASSISTANT:`
cue. -/
def prompt_lines (history : List (String × String)) (user_text : String)
    (context : String) (tools_json : String) (user_preferences : String) :
    List String :=
  let system_prompt :=
    ("You are Levial, a capable and intelligent voice assistant. ") ++
    ("You have access to external tools to help the user. ") ++
    ("Use these tools silently and naturally to fulfill requests. ") ++
    ("Do NOT list your tools or explain your capabilities unless explicitly asked. ") ++
    ("Answer conversationally and concisely (1-3 sentences).")
  [system_prompt] ++
  (if user_preferences != ("") then
    [("IMPORTANT - ADAPT TO USER PREFERENCES: ") ++ user_preferences]
   else []) ++
  (if tools_json != ("") then
    [("\nAVAILABLE TOOLS (Use JSON to call):\n") ++ tools_json ++ ("\n"),
     ("To call a tool, output ONLY a JSON object: \x7b\"tool\": \"tool_name\", \"server\": \"server_name\", \"arguments\": \x7b...\x7d\x7d")]
   else []) ++
  (if context != ("") then
    [("\nCONTEXT:\n") ++ context ++ ("\n")]
   else []) ++
  history.map (fun rc => (String.mk (rc.1.data.map Char.toUpper)) ++ (": ") ++ rc.2) ++
  [("USER: ") ++ user_text, ("ASSISTANT:")]

/-- The prompt is the newline-join of its lines, llm.py line 33. -/
def build_prompt (history : List (String × String)) (user_text : String)
    (context : String) (tools_json : String) (user_preferences : String) :
    String :=
  String.intercalate ("\n")
    (prompt_lines history user_text context tools_json user_preferences)

/-!
Concrete fixtures used to evaluate the model at specific inputs.
-/

/-- A reply that is exactly an empty JSON object, `"{}"` (braces written
by code point). -/
def replyBraces : String := "\x7b\x7d"

/-- Oracle family: every model reply is the two-character object string
and parses to an object holding both required keys (no `server`). -/
def envAllTools : LoopEnv :=
  { query := fun _ => Except.ok replyBraces,
    parse := fun _ =>
      some [(("tool"), Json.str ("t")), (("arguments"), Json.obj [])],
    callTool := fun _ => Except.ok ("ok"),
    shutdownFlag := fun _ => false }

/-- The tool call detected from `envAllTools` replies. -/
def tcPlain : ToolCall :=
  { tool := Json.str ("t"), server := none, arguments := Json.obj [] }

/-- Oracle family: the model reply is plain text with no braces at
all. -/
def envPlainReply : LoopEnv :=
  { query := fun _ => Except.ok ("hello"),
    parse := fun _ => none,
    callTool := fun _ => Except.ok (""),
    shutdownFlag := fun _ => false }

/-- Oracle family: the first reply is a well-formed tool call (with a
truthy `server`), the second reply is plain text with no braces - a turn
whose final answer arrives only after a tool-call iteration. -/
def envMixed : LoopEnv :=
  { query := fun n =>
      if n = 1 then Except.ok replyBraces else Except.ok ("hello"),
    parse := fun s =>
      if s = replyBraces then
        some [(("tool"), Json.str ("t")), (("arguments"), Json.obj []),
              (("server"), Json.str ("srv"))]
      else none,
    callTool := fun _ => Except.ok ("ok"),
    shutdownFlag := fun _ => false }

/-- Oracle family: the model reply is the empty string (falsy in
Python). -/
def envEmptyReply : LoopEnv :=
  { query := fun _ => Except.ok (""),
    parse := fun _ => none,
    callTool := fun _ => Except.ok (""),
    shutdownFlag := fun _ => false }

/-- Oracle family: every model query raises
`subprocess.CalledProcessError`. -/
def envQueryFails : LoopEnv :=
  { query := fun _ => Except.error (),
    parse := fun _ => none,
    callTool := fun _ => Except.ok (""),
    shutdownFlag := fun _ => false }

/-- Oracle family: replies parse to a tool call whose `server` member is
present but is the empty string (falsy). -/
def envEmptyServer : LoopEnv :=
  { query := fun _ => Except.ok replyBraces,
    parse := fun _ =>
      some [(("tool"), Json.str ("t")), (("arguments"), Json.obj []),
            (("server"), Json.str (""))],
    callTool := fun _ => Except.ok ("ok"),
    shutdownFlag := fun _ => false }

/-- The tool call detected from `envEmptyServer` replies: `server` is
present and non-null, yet falsy. -/
def tcEmptyServer : ToolCall :=
  { tool := Json.str ("t"), server := some (Json.str ("")),
    arguments := Json.obj [] }

/-- A profile with a stored name, used by the extraction fixtures. -/
def profAlice : UserProfileData :=
  { name := Json.str ("Alice"), facts := [], interests := [],
    preferences := [] }

/-- A profile whose stored facts are `{"city": "Lyon", "age": "5"}`. -/
def profLyon : UserProfileData :=
  { name := Json.str ("Alice"),
    facts := [(("city"), Json.str ("Lyon")), (("age"), Json.str ("5"))],
    interests := [], preferences := [] }

/-- An extraction whose only content is `"facts": {"city": "Paris"}`
(schema-complete: `interests` empty, `name` null). -/
def kParis : JsonObj :=
  [(("facts"), Json.obj [(("city"), Json.str ("Paris"))]),
   (("interests"), Json.arr []), (("name"), Json.null)]

/-- An extraction carrying a present, non-null but empty `name`. -/
def kEmptyName : JsonObj :=
  [(("name"), Json.str (""))]

/-- The SPEAKING phase oracle for the scenario the claim describes: TTS
synthesis and playback succeed, and the user speaks over the playback
(speech would be detected, a recording would be available). -/
def speakEnvSuccessSpeech : SpeakEnv :=
  { ttsRaises := false, waitOutcome := WaitOutcome.speechSeen,
    shutdownAfterWait := false, procNoneAtCheck := true,
    speechEventSet := true, intRecorded := true,
    intText := ("Thank you") }

/-- The SPEAKING phase oracle for the one path on which the barge-in
block does run (TTS raised), with the interruption transcribing to a
"thank you" phrase. -/
def speakEnvThankYou : SpeakEnv :=
  { ttsRaises := true, waitOutcome := WaitOutcome.speechSeen,
    shutdownAfterWait := false, procNoneAtCheck := true,
    speechEventSet := true, intRecorded := true,
    intText := ("Thank you") }

/-!
Helper lemmas: semantic characterisation of the scanning primitives and
the generic unrolling of an all-tool-calls run of the loop.
-/

theorem findIdx_char_eq_some_iff (l : List Char) (c : Char) (i : Nat) :
    l.findIdx? (fun x => x = c) = some i ↔ IsFirstIdx l c i := by
  unfold IsFirstIdx
  rw [List.findIdx?_eq_some_iff_getElem]
  constructor
  · rintro ⟨h, hp, hmin⟩
    refine ⟨?_, ?_⟩
    · rw [List.getElem?_eq_getElem h]
      simpa using hp
    · intro j hj
      have hjlen : j < l.length := Nat.lt_trans hj h
      rw [List.getElem?_eq_getElem hjlen]
      have := hmin j hj
      simpa using this
  · rintro ⟨hp, hmin⟩
    have hlen : i < l.length := by
      by_contra hge
      rw [List.getElem?_eq_none (Nat.le_of_not_lt hge)] at hp
      exact Option.noConfusion hp
    refine ⟨hlen, ?_, ?_⟩
    · rw [List.getElem?_eq_getElem hlen] at hp
      simpa using hp
    · intro j hj
      have hjlen : j < l.length := Nat.lt_trans hj hlen
      have := hmin j hj
      rw [List.getElem?_eq_getElem hjlen] at this
      simpa using this

theorem strFind_eq_some_iff (s : String) (c : Char) (i : Nat) :
    strFind s c = some i ↔ IsFirstIdx s.data c i :=
  findIdx_char_eq_some_iff s.data c i

theorem rfind_char_eq_some_iff (l : List Char) (c : Char) (i : Nat) :
    (l.reverse.findIdx? (fun x => x = c)).map (fun k => l.length - 1 - k) =
      some i ↔ IsLastIdx l c i := by
  unfold IsLastIdx
  constructor
  · intro h
    obtain ⟨k, hk, hi⟩ := Option.map_eq_some'.mp h
    obtain ⟨hklen, hmin⟩ := (findIdx_char_eq_some_iff l.reverse c k).mp hk
    have hklen2 : k < l.length := by
      by_contra hge
      rw [List.getElem?_eq_none (by simpa using Nat.le_of_not_lt hge)] at hklen
      exact Option.noConfusion hklen
    subst hi
    have hrev : l.reverse[k]? = l[l.length - 1 - k]? := by
      apply List.getElem?_reverse'
      omega
    refine ⟨by rw [← hrev]; exact hklen, ?_⟩
    intro j hj hcon
    have hjlen : j < l.length := by
      by_contra hge
      rw [List.getElem?_eq_none (Nat.le_of_not_lt hge)] at hcon
      exact Option.noConfusion hcon
    have hrj : l.reverse[l.length - 1 - j]? = l[j]? := by
      apply List.getElem?_reverse'
      omega
    have hlt : l.length - 1 - j < k := by omega
    exact hmin (l.length - 1 - j) hlt (by rw [hrj]; exact hcon)
  · rintro ⟨hp, hmax⟩
    have hilen : i < l.length := by
      by_contra hge
      rw [List.getElem?_eq_none (Nat.le_of_not_lt hge)] at hp
      exact Option.noConfusion hp
    have hk : l.reverse.findIdx? (fun x => x = c) =
        some (l.length - 1 - i) := by
      rw [findIdx_char_eq_some_iff]
      refine ⟨?_, ?_⟩
      · have hrev : l.reverse[l.length - 1 - i]? = l[i]? := by
          apply List.getElem?_reverse'
          omega
        rw [hrev]
        exact hp
      · intro j hj hcon
        have hjlen : j < l.length := by omega
        have hrj : l.reverse[j]? = l[l.length - 1 - j]? := by
          apply List.getElem?_reverse'
          omega
        rw [hrj] at hcon
        have hgt : i < l.length - 1 - j := by omega
        exact hmax (l.length - 1 - j) hgt hcon
    rw [hk]
    simp only [Option.map_eq_some']
    exact ⟨l.length - 1 - i, rfl, by omega⟩

theorem strRFind_eq_some_iff (s : String) (c : Char) (i : Nat) :
    strRFind s c = some i ↔ IsLastIdx s.data c i :=
  rfind_char_eq_some_iff s.data c i


theorem toolPairs_length (env : LoopEnv) (r : Nat → String)
    (tc : Nat → ToolCall) (t fuel : Nat) :
    (toolPairs env r tc t fuel).length = 2 * fuel := by
  induction fuel generalizing t with
  | zero => rfl
  | succ fuel ih =>
    simp only [toolPairs, List.length_cons, ih]
    omega

theorem agenticGo_all_tools (env : LoopEnv) (m : Nat) (r : Nat → String)
    (tc : Nat → ToolCall)
    (hshut : ∀ n, env.shutdownFlag n = false)
    (hq : ∀ n, env.query n = Except.ok (r n))
    (htc : ∀ n, findToolCall env.parse (r n) = some (tc n)) :
    ∀ fuel s, s.turn + fuel = m →
      agenticGo env m fuel s =
        ({ turn := m,
           history := s.history ++ toolPairs env r tc s.turn fuel,
           replyVar := if fuel = 0 then s.replyVar else some (r m),
           invocations := s.invocations ++ toolInvocs env tc s.turn fuel },
         LoopExit.budget) := by
  intro fuel
  induction fuel with
  | zero =>
    intro s hs
    have hm : s.turn = m := by omega
    cases s
    simp_all [agenticGo, toolPairs, toolInvocs]
  | succ fuel ih =>
    intro s hs
    have hlt : s.turn < m := by omega
    simp only [agenticGo, if_pos hlt, hshut s.turn, Bool.false_eq_true,
      if_false, hq (s.turn + 1), htc (s.turn + 1)]
    rw [ih { turn := s.turn + 1,
             history := s.history ++
               [(("assistant"), r (s.turn + 1)),
                (("system"), ("Tool Output: ") ++
                  (toolObservation (env.callTool (s.turn + 1))
                    (tc (s.turn + 1))).1)],
             replyVar := some (r (s.turn + 1)),
             invocations := s.invocations ++
               (if (toolObservation (env.callTool (s.turn + 1))
                     (tc (s.turn + 1))).2 then [s.turn + 1] else []) }
          (by simp; omega)]
    simp only [toolPairs, toolInvocs, List.append_assoc]
    by_cases hf : fuel = 0
    · subst hf
      simp only [if_pos rfl]
      have hm : m = s.turn + 1 := by omega
      simp [hm]
    · simp [if_neg hf, hf]


theorem agenticGo_succ (env : LoopEnv) (m fuel : Nat) (s : LoopState) :
    agenticGo env m (fuel + 1) s =
      (if s.turn < m then
        if env.shutdownFlag s.turn then (s, LoopExit.shutdownExit)
        else
          match env.query (s.turn + 1) with
          | Except.error _ =>
            ({ s with turn := s.turn + 1 }, LoopExit.queryError)
          | Except.ok reply =>
            match findToolCall env.parse reply with
            | some tc =>
              let ob := toolObservation (env.callTool (s.turn + 1)) tc
              agenticGo env m fuel
                { turn := s.turn + 1,
                  history := s.history ++
                    [(("assistant"), reply),
                     (("system"), ("Tool Output: ") ++ ob.1)],
                  replyVar := some reply,
                  invocations := s.invocations ++
                    (if ob.2 then [s.turn + 1] else []) }
            | none =>
              ({ turn := s.turn + 1,
                 history := s.history ++ [(("assistant"), reply)],
                 replyVar := some reply,
                 invocations := s.invocations }, LoopExit.finalAnswer reply)
      else (s, LoopExit.budget)) := rfl

theorem agenticRun_first_final (env : LoopEnv) (reply : String)
    (h0 : List (String × String)) (r0 : Option String)
    (hshut : env.shutdownFlag 0 = false)
    (hq : env.query 1 = Except.ok reply)
    (hnone : findToolCall env.parse reply = none) :
    agenticRun env h0 r0 =
      ({ turn := 1, history := h0 ++ [(("assistant"), reply)],
         replyVar := some reply, invocations := [] },
       LoopExit.finalAnswer reply) := by
  have e0 : agenticRun env h0 r0 =
      agenticGo env 5 (4 + 1)
        { turn := 0, history := h0, replyVar := r0, invocations := [] } := rfl
  rw [e0, agenticGo_succ]
  simp only [hshut, hq, hnone]
  rw [if_pos (by omega)]
  simp

theorem mem_prompt_lines (history : List (String × String))
    (u c t pr : String) (rc : String × String) (h : rc ∈ history) :
    ((String.mk (rc.1.data.map Char.toUpper)) ++ (": ") ++ rc.2) ∈
      prompt_lines history u c t pr := by
  unfold prompt_lines
  simp only [List.mem_append, List.mem_map]
  exact Or.inl (Or.inr ⟨rc, h, rfl⟩)

theorem agenticGo_final_shape (env : LoopEnv) (m : Nat) :
    ∀ fuel s reply,
      (agenticGo env m fuel s).2 = LoopExit.finalAnswer reply →
      (agenticGo env m fuel s).1.replyVar = some reply ∧
      ∃ pre, (agenticGo env m fuel s).1.history =
        pre ++ [(("assistant"), reply)] := by
  intro fuel
  induction fuel with
  | zero =>
    intro s reply h
    simp [agenticGo] at h
  | succ fuel ih =>
    intro s reply h
    rw [agenticGo_succ] at h ⊢
    by_cases hlt : s.turn < m
    · rw [if_pos hlt] at h ⊢
      by_cases hsd : env.shutdownFlag s.turn = true
      · rw [if_pos hsd] at h
        simp at h
      · rw [if_neg hsd] at h ⊢
        cases hq : env.query (s.turn + 1) with
        | error u =>
          simp only [hq] at h
          simp at h
        | ok reply2 =>
          simp only [hq] at h ⊢
          cases htc : findToolCall env.parse reply2 with
          | some tc =>
            simp only [htc] at h ⊢
            exact ih _ reply h
          | none =>
            simp only [htc] at h ⊢
            simp only [LoopExit.finalAnswer.injEq] at h
            subst h
            exact ⟨rfl, s.history, rfl⟩
    · rw [if_neg hlt] at h
      simp at h

/-!
Claim theorems.
-/

/-- C4: tool-call detection extracts exactly the substring of the raw
reply running from its first `{` to its last `}`, hands that substring to
the JSON parser, and yields a ToolCall exactly when the parse succeeds
and the parsed object has both the `tool` and the `arguments` keys; in
every other case the reply is not treated as a tool call. -/
theorem toolcall_detection_first_to_last
    (parse : String → Option JsonObj) (reply : String) :
    (findToolCall parse reply).isSome = true ↔
      ∃ s e o, IsFirstIdx reply.data lbrace s ∧ IsLastIdx reply.data rbrace e ∧
        parse (strSlice reply s (e + 1)) = some o ∧
        JsonObj.hasKey o (("tool")) = true ∧
        JsonObj.hasKey o (("arguments")) = true := by
  constructor
  · intro h
    unfold findToolCall at h
    cases hf : strFind reply lbrace with
    | none => rw [hf] at h; simp at h
    | some s =>
      cases hl : strRFind reply rbrace with
      | none => rw [hf, hl] at h; simp at h
      | some e =>
        rw [hf, hl] at h
        have h2 : (match parse (strSlice reply s (e + 1)) with
            | some o =>
              match JsonObj.get? o (("tool")),
                  JsonObj.get? o (("arguments")) with
              | some t, some a =>
                some (⟨t, JsonObj.get? o (("server")), a⟩ : ToolCall)
              | _, _ => none
            | none => none).isSome = true := h
        cases hp : parse (strSlice reply s (e + 1)) with
        | none => rw [hp] at h2; simp at h2
        | some o =>
          rw [hp] at h2
          have h3 : (match JsonObj.get? o (("tool")),
              JsonObj.get? o (("arguments")) with
            | some t, some a =>
              some (⟨t, JsonObj.get? o (("server")), a⟩ : ToolCall)
            | _, _ => none).isSome = true := h2
          cases ht : JsonObj.get? o (("tool")) with
          | none => rw [ht] at h3; simp at h3
          | some t =>
            cases ha : JsonObj.get? o (("arguments")) with
            | none => rw [ht, ha] at h3; simp at h3
            | some a =>
              exact ⟨s, e, o, (strFind_eq_some_iff reply lbrace s).mp hf,
                (strRFind_eq_some_iff reply rbrace e).mp hl, hp,
                by simp [JsonObj.hasKey, ht],
                by simp [JsonObj.hasKey, ha]⟩
  · rintro ⟨s, e, o, hf, hl, hp, ht, ha⟩
    obtain ⟨t, ht2⟩ := Option.isSome_iff_exists.mp
      (by simpa [JsonObj.hasKey] using ht)
    obtain ⟨a, ha2⟩ := Option.isSome_iff_exists.mp
      (by simpa [JsonObj.hasKey] using ha)
    unfold findToolCall
    rw [(strFind_eq_some_iff reply lbrace s).mpr hf,
      (strRFind_eq_some_iff reply rbrace e).mpr hl]
    show (match parse (strSlice reply s (e + 1)) with
        | some o =>
          match JsonObj.get? o (("tool")),
              JsonObj.get? o (("arguments")) with
          | some t, some a =>
            some (⟨t, JsonObj.get? o (("server")), a⟩ : ToolCall)
          | _, _ => none
        | none => none).isSome = true
    rw [hp]
    show (match JsonObj.get? o (("tool")),
        JsonObj.get? o (("arguments")) with
      | some t, some a =>
        some (⟨t, JsonObj.get? o (("server")), a⟩ : ToolCall)
      | _, _ => none).isSome = true
    rw [ht2, ha2]
    rfl

/-- C3: when the reply of the first iteration holds no well-formed
tool call (`findToolCall` yields nothing, which theorem
`toolcall_detection_first_to_last` shows is exactly a failing parse or a
missing `tool`/`arguments` key), the loop appends the full reply as the
final assistant answer and terminates on that first iteration with the
turn counter at `1`. -/
theorem toolcall_loop_first_iteration_final (env : LoopEnv)
    (reply : String) (h0 : List (String × String)) (r0 : Option String)
    (hshut : env.shutdownFlag 0 = false)
    (hq : env.query 1 = Except.ok reply)
    (hnone : findToolCall env.parse reply = none) :
    agenticRun env h0 r0 =
      ({ turn := 1, history := h0 ++ [(("assistant"), reply)],
         replyVar := some reply, invocations := [] },
       LoopExit.finalAnswer reply) :=
  agenticRun_first_final env reply h0 r0 hshut hq hnone

/-- C3 witness: a braceless reply terminates the loop at turn 1 with the
reply as the final answer. -/
theorem toolcall_loop_first_iteration_final_witness :
    agenticRun envPlainReply [] none =
      ({ turn := 1, history := [(("assistant"), ("hello"))],
         replyVar := some ("hello"), invocations := [] },
       LoopExit.finalAnswer ("hello")) := by
  have h := toolcall_loop_first_iteration_final envPlainReply ("hello")
    [] none rfl rfl rfl
  simpa using h

/-- C2: when every reply of the oracle family parses to a well-formed
tool call, the loop runs exactly `max_turns = 5` iterations, stops with
the exhausted turn budget, and the history it leaves holds exactly the
five adjacent (assistant reply, `Tool Output: …`) pairs it appended, one
pair per iteration. -/
theorem toolcall_loop_exact_budget (env : LoopEnv) (r : Nat → String)
    (tc : Nat → ToolCall) (h0 : List (String × String)) (r0 : Option String)
    (hshut : ∀ n, env.shutdownFlag n = false)
    (hq : ∀ n, env.query n = Except.ok (r n))
    (htc : ∀ n, findToolCall env.parse (r n) = some (tc n)) :
    (agenticRun env h0 r0).2 = LoopExit.budget ∧
    (agenticRun env h0 r0).1.turn = max_turns ∧
    (agenticRun env h0 r0).1.history =
      h0 ++ toolPairs env r tc 0 max_turns ∧
    (toolPairs env r tc 0 max_turns).length = 2 * max_turns := by
  have h := agenticGo_all_tools env max_turns r tc hshut hq htc max_turns
    { turn := 0, history := h0, replyVar := r0, invocations := [] }
    (by simp)
  have e0 : agenticRun env h0 r0 =
      agenticGo env max_turns max_turns
        { turn := 0, history := h0, replyVar := r0, invocations := [] } := rfl
  rw [e0, h]
  exact ⟨rfl, rfl, rfl, toolPairs_length env r tc 0 max_turns⟩

/-- C2 witness: with every reply the two-character object string parsing
to a tool call, the loop stops by budget with the counter at 5. -/
theorem toolcall_loop_exact_budget_witness :
    (agenticRun envAllTools [] none).2 = LoopExit.budget ∧
    (agenticRun envAllTools [] none).1.turn = max_turns := by
  have h := toolcall_loop_exact_budget envAllTools (fun _ => replyBraces)
    (fun _ => tcPlain) [] none (fun _ => rfl) (fun _ => rfl) (fun _ => rfl)
  exact ⟨h.1, h.2.1⟩

/-- C5: evaluation of the failure handling of the code for model queries at the
failing input.  When the very first model query of a session raises
(`subprocess.CalledProcessError`), the loop `break`s with the local
`reply` never assigned, and the `if reply:` guard that follows
immediately raises `UnboundLocalError`, crashing the session - the claim
says the failure is turn-abandoning and never fatal.  When a binding
survives from an earlier cycle, the orchestrator instead re-enters
SPEAKING with that stale reply rather than returning to IDLE. -/
theorem query_failure_crashes_or_speaks_stale :
    (agenticRun envQueryFails [] none).2 = LoopExit.queryError ∧
    (agenticRun envQueryFails [] none).1.replyVar = none ∧
    afterLoop (agenticRun envQueryFails [] none).1.replyVar =
      AfterLoop.crashUnbound ∧
    afterLoop (agenticRun envQueryFails [] (some ("prev"))).1.replyVar =
      AfterLoop.speaking ("prev") :=
  ⟨rfl, rfl, rfl, rfl⟩

/-- C6 counterexample: a tool call whose `server` field is present (and
non-null) but empty.  The field is not missing, yet the loop synthesizes
the missing-server error observation and does not invoke the tool,
contradicting the claim that otherwise the tool is invoked. -/
theorem tool_call_empty_server_not_invoked :
    tcEmptyServer.server = some (Json.str ("")) ∧
    findToolCall envEmptyServer.parse replyBraces = some tcEmptyServer ∧
    toolObservation (envEmptyServer.callTool 1) tcEmptyServer =
      ((("Error: Server name missing.")), false) :=
  ⟨rfl, rfl, rfl⟩

/-- C6 amended: for every detected tool call, if the `server` field is
missing or its value is falsy (null, empty string, zero or false), the
loop records the observation `Error: Server name missing.` without
invoking any tool; if the `server` value is truthy, the tool is invoked,
and a raised exception is caught and folded into an error-observation
string; in either case the observation lands in the `Tool Output:`
history entry of that iteration and the loop simply continues, so
nothing propagates out of the loop. -/
theorem tool_call_server_and_exception_policy (env : LoopEnv)
    (m fuel : Nat) (s : LoopState) (reply : String) (tc : ToolCall)
    (hlt : s.turn < m) (hshut : env.shutdownFlag s.turn = false)
    (hq : env.query (s.turn + 1) = Except.ok reply)
    (htc : findToolCall env.parse reply = some tc) :
    agenticGo env m (fuel + 1) s =
      agenticGo env m fuel
        { turn := s.turn + 1,
          history := s.history ++
            [(("assistant"), reply),
             (("system"), ("Tool Output: ") ++
               (toolObservation (env.callTool (s.turn + 1)) tc).1)],
          replyVar := some reply,
          invocations := s.invocations ++
            (if (toolObservation (env.callTool (s.turn + 1)) tc).2 then
              [s.turn + 1] else []) } ∧
    (optTruthy tc.server = false →
      toolObservation (env.callTool (s.turn + 1)) tc =
        ((("Error: Server name missing.")), false)) ∧
    (∀ e, optTruthy tc.server = true →
      env.callTool (s.turn + 1) = Except.error e →
      toolObservation (env.callTool (s.turn + 1)) tc =
        ((("Error: Tool execution failed: ") ++ e), true)) := by
  refine ⟨?_, ?_, ?_⟩
  · rw [agenticGo_succ, if_pos hlt, hshut]
    show (match env.query (s.turn + 1) with
      | Except.error _ => ({ s with turn := s.turn + 1 }, LoopExit.queryError)
      | Except.ok reply =>
        match findToolCall env.parse reply with
        | some tc =>
          let ob := toolObservation (env.callTool (s.turn + 1)) tc
          agenticGo env m fuel
            { turn := s.turn + 1,
              history := s.history ++
                [(("assistant"), reply),
                 (("system"), ("Tool Output: ") ++ ob.1)],
              replyVar := some reply,
              invocations := s.invocations ++
                (if ob.2 then [s.turn + 1] else []) }
        | none =>
          ({ turn := s.turn + 1,
             history := s.history ++ [(("assistant"), reply)],
             replyVar := some reply,
             invocations := s.invocations }, LoopExit.finalAnswer reply)) = _
    rw [hq]
    show (match findToolCall env.parse reply with
      | some tc =>
        let ob := toolObservation (env.callTool (s.turn + 1)) tc
        agenticGo env m fuel
          { turn := s.turn + 1,
            history := s.history ++
              [(("assistant"), reply),
               (("system"), ("Tool Output: ") ++ ob.1)],
            replyVar := some reply,
            invocations := s.invocations ++
              (if ob.2 then [s.turn + 1] else []) }
      | none =>
        ({ turn := s.turn + 1,
           history := s.history ++ [(("assistant"), reply)],
           replyVar := some reply,
           invocations := s.invocations }, LoopExit.finalAnswer reply)) = _
    rw [htc]
  · intro hfalsy
    unfold toolObservation
    rw [hfalsy]
    rfl
  · intro e htruthy herr
    unfold toolObservation
    rw [htruthy, herr]
    rfl

/-- C6 witness: at a concrete falsy-server tool call the loop appends the
missing-server observation without any invocation and continues into the
next iteration. -/
theorem tool_call_server_and_exception_policy_witness :
    toolObservation (envEmptyServer.callTool 1) tcEmptyServer =
      ((("Error: Server name missing.")), false) :=
  (tool_call_server_and_exception_policy envEmptyServer 5 0
    { turn := 0, history := [], replyVar := none, invocations := [] }
    replyBraces tcEmptyServer (by decide) rfl rfl rfl).2.1 rfl

/-- C1: evaluation of the SPEAKING phase at the scenario the claim
describes.  With TTS synthesis and playback succeeding and user speech
present, the barge-in detector is never started, playback is never
stopped, no interruption is captured, and the phase simply runs to IDLE:
the monitoring block (orchestrator.py lines 370-450) is the body of the
TTS `except Exception` handler, so successful playback is never
interruptible.  Moreover, on the one path where the block does run (TTS
raised) a transcribed "thank you" interruption `break`s out of the
session loop of line 171 - ending the session - instead of returning to
IDLE as the claim (and the comment on line 444) states. -/
theorem barge_in_unreachable_on_successful_playback :
    (speakingPhase speakEnvSuccessSpeech).monitoringStarted = false ∧
    (speakingPhase speakEnvSuccessSpeech).playbackStopped = false ∧
    (speakingPhase speakEnvSuccessSpeech).interruptionCaptured = false ∧
    (speakingPhase speakEnvSuccessSpeech).result = SpeakResult.toIdle ∧
    (speakingPhase speakEnvThankYou).result = SpeakResult.sessionEnd :=
  ⟨rfl, rfl, rfl, rfl, rfl⟩

/-- C7: whenever the extraction query raises, or the response holds no
brace-delimited candidate, or the candidate substring fails the JSON
parse, `extract_and_update_knowledge` returns the empty result
(`facts={}`, `interests=[]`, `name=None`), leaves the profile exactly as
it was, and does not reach `save_profile`; the model function is total,
mirroring the `except` handler in the source that converts every such failure
into this return value instead of letting it abort the turn. -/
theorem extraction_failure_empty_and_profile_unchanged
    (p : UserProfileData) (queryResult : Except Unit String)
    (parse : String → Option JsonObj)
    (h : queryResult = Except.error () ∨
      ∃ result, queryResult = Except.ok result ∧
        (strFind result lbrace = none ∨ strRFind result rbrace = none ∨
         ∃ s e, strFind result lbrace = some s ∧
           strRFind result rbrace = some e ∧
           parse (strSlice result s (e + 1)) = none)) :
    extract_and_update_knowledge p queryResult parse =
      { profile := p, knowledge := emptyKnowledge, saved := false } := by
  rcases h with h | ⟨result, hq, hcase⟩
  · subst h
    rfl
  · subst hq
    unfold extract_and_update_knowledge
    rcases hcase with h1 | h2 | ⟨s, e, h3, h4, h5⟩
    · simp [h1]
    · cases hf : strFind result lbrace with
      | none => simp [hf]
      | some s => simp [hf, h2]
    · simp [h3, h4, h5]

/-- C7 witness: a raising extraction query yields the empty result and an
unchanged profile. -/
theorem extraction_failure_empty_witness :
    extract_and_update_knowledge profAlice (Except.error ())
      (fun _ => none) =
      { profile := profAlice, knowledge := emptyKnowledge,
        saved := false } :=
  extraction_failure_empty_and_profile_unchanged profAlice
    (Except.error ()) (fun _ => none) (Or.inl rfl)

/-- C8 counterexample: an extraction whose `name` is present and
non-null but empty.  The claim says a present, non-null name overwrites
the stored name; the truthiness guard in the code skips the overwrite, and
`Alice` survives where the claim demands the empty string. -/
theorem knowledge_empty_name_not_overwritten :
    JsonObj.hasKey kEmptyName (("name")) = true ∧
    JsonObj.get? kEmptyName (("name")) ≠ some Json.null ∧
    (extract_and_update_knowledge profAlice (Except.ok replyBraces)
      (fun _ => some kEmptyName)).profile.name = Json.str ("Alice") ∧
    Json.str ("Alice") ≠ Json.str ("") := by
  refine ⟨rfl, ?_, rfl, ?_⟩
  · intro h
    simp [kEmptyName, JsonObj.get?] at h
  · intro h
    simp at h

/-- C8 amended: on a successful, schema-shaped extraction, a `name`
with a truthy value (so in particular non-null and non-empty) overwrites
the stored profile name while a falsy one leaves it unchanged; each entry
of the `facts` mapping is merged into the stored facts by key-overwrite;
each listed interest is added to the stored interest set; the
`preferences` field is untouched; and the save step is reached
(persisting the profile synchronously). -/
theorem knowledge_merge_semantics (p : UserProfileData) (result : String)
    (parse : String → Option JsonObj) (k : JsonObj) (s e : Nat) (nv : Json)
    (fs : List (String × Json)) (l : List Json)
    (hs : strFind result lbrace = some s)
    (he : strRFind result rbrace = some e)
    (hp : parse (strSlice result s (e + 1)) = some k)
    (hname : JsonObj.get? k (("name")) = some nv)
    (hfacts : JsonObj.get? k (("facts")) = some (Json.obj fs))
    (hints : JsonObj.get? k (("interests")) = some (Json.arr l)) :
    extract_and_update_knowledge p (Except.ok result) parse =
      { profile :=
          { name := if nv.truthy then nv else p.name,
            facts := fs.foldl (fun acc kv => dictSet acc kv.1 kv.2) p.facts,
            interests := l.foldl update_interest p.interests,
            preferences := p.preferences },
        knowledge := k, saved := true } := by
  unfold extract_and_update_knowledge
  simp only [hs, he, hp, hname, hfacts, hints, optTruthy, Option.getD]
  rcases fs with _ | ⟨f, fs⟩ <;> rcases l with _ | ⟨i, l⟩ <;>
    cases hnv : nv.truthy <;>
      simp [factsStep, interestsStep, Json.truthy]

/-- C8 witness: the example given by the claim.  Applying
`{"facts": {"city": "Paris"}}` to a profile whose stored facts are
`{"city": "Lyon", "age": "5"}` yields `{"city": "Paris", "age": "5"}`,
the null name leaves `Alice` in place, and the save step is reached. -/
theorem knowledge_merge_semantics_witness :
    extract_and_update_knowledge profLyon (Except.ok replyBraces)
      (fun _ => some kParis) =
      { profile :=
          { name := Json.str ("Alice"),
            facts := [(("city"), Json.str ("Paris")),
                      (("age"), Json.str ("5"))],
            interests := [], preferences := [] },
        knowledge := kParis, saved := true } := by
  have h := knowledge_merge_semantics profLyon replyBraces
    (fun _ => some kParis) kParis 0 1 Json.null
    [(("city"), Json.str ("Paris"))] [] rfl rfl rfl rfl rfl rfl
  exact h

/-- C9: with zero memory-store hits the per-turn context string is still
the full three-section concatenation - time section, then profile
section, then the memories section - with the memories section present
as the empty string rather than omitted. -/
theorem context_zero_hits_memories_section_empty
    (profileRepr timeStr : String) :
    get_relevant_context profileRepr timeStr [] =
      (("Current Time: ") ++ timeStr) ++ ("\n") ++
        (("User Profile: ") ++ profileRepr) ++ ("\n") ++ ("") := rfl

/-- C10 counterexample: a completed non-tool turn whose final reply is
the empty string.  The loop appends it under the `assistant` role, but
the falsy `if reply:` guard skips the SPEAKING phase, so no `agent`-role
copy is ever appended - the reply lands in history once, not twice. -/
theorem empty_final_reply_single_append :
    (agenticRun envEmptyReply [] none).2 = LoopExit.finalAnswer ("") ∧
    historyAfterSpeaking (agenticRun envEmptyReply [] none) =
      [(("assistant"), (""))] ∧
    (historyAfterSpeaking (agenticRun envEmptyReply [] none)).filter
      (fun rc => rc.1 == ("agent")) = [] :=
  ⟨rfl, rfl, rfl⟩

/-- C10 amended: for every completed non-tool turn whose final reply is
non-empty - that is, whenever the Tool-Call Loop exits accepting `reply`
as the final answer, after any number of preceding tool-call iterations -
the reply is appended to history twice: once under the `assistant` role
as the last entry the loop appends, and once under the `agent` role at
the start of the SPEAKING phase; every prompt subsequently built from
that history renders it under both roles. -/
theorem final_reply_double_roles (env : LoopEnv)
    (h0 : List (String × String)) (r0 : Option String) (reply : String)
    (hfin : (agenticRun env h0 r0).2 = LoopExit.finalAnswer reply)
    (hne : reply ≠ ("")) :
    ∃ pre,
      (agenticRun env h0 r0).1.history =
        pre ++ [(("assistant"), reply)] ∧
      historyAfterSpeaking (agenticRun env h0 r0) =
        pre ++ [(("assistant"), reply), (("agent"), reply)] ∧
      ∀ u c t pr,
        (("ASSISTANT: ") ++ reply) ∈
          prompt_lines (historyAfterSpeaking (agenticRun env h0 r0))
            u c t pr ∧
        (("AGENT: ") ++ reply) ∈
          prompt_lines (historyAfterSpeaking (agenticRun env h0 r0))
            u c t pr := by
  obtain ⟨hrv, pre, hh⟩ := agenticGo_final_shape env max_turns max_turns
    { turn := 0, history := h0, replyVar := r0, invocations := [] }
    reply hfin
  have hrv2 : (agenticRun env h0 r0).1.replyVar = some reply := hrv
  have hh2 : (agenticRun env h0 r0).1.history =
      pre ++ [(("assistant"), reply)] := hh
  have hhist : historyAfterSpeaking (agenticRun env h0 r0) =
      pre ++ [(("assistant"), reply), (("agent"), reply)] := by
    unfold historyAfterSpeaking
    rw [hrv2]
    simp only [afterLoop]
    rw [if_neg hne]
    simp [hh2]
  refine ⟨pre, hh2, hhist, ?_⟩
  intro u c t pr
  rw [hhist]
  constructor
  · exact mem_prompt_lines (pre ++ [(("assistant"), reply),
      (("agent"), reply)]) u c t pr (("assistant"), reply) (by simp)
  · exact mem_prompt_lines (pre ++ [(("assistant"), reply),
      (("agent"), reply)]) u c t pr (("agent"), reply) (by simp)

/-- C10 witness: a turn whose non-empty final answer arrives on the
second loop iteration, after a tool-call iteration.  The reply lands in
history under both the `assistant` and the `agent` roles, and the prompt
built from that history renders both lines. -/
theorem final_reply_double_roles_witness :
    historyAfterSpeaking (agenticRun envMixed [] none) =
      [(("assistant"), replyBraces), (("system"), ("Tool Output: ok")),
       (("assistant"), ("hello")), (("agent"), ("hello"))] ∧
    (("ASSISTANT: ") ++ ("hello")) ∈
      prompt_lines (historyAfterSpeaking (agenticRun envMixed [] none))
        ("hi") ("") ("") ("") ∧
    (("AGENT: ") ++ ("hello")) ∈
      prompt_lines (historyAfterSpeaking (agenticRun envMixed [] none))
        ("hi") ("") ("") ("") := by
  obtain ⟨_, _, _, h3⟩ := final_reply_double_roles envMixed [] none
    ("hello") rfl (by decide)
  exact ⟨rfl, (h3 ("hi") ("") ("") ("")).1, (h3 ("hi") ("") ("") ("")).2⟩

end Levial
